import Mathlib

set_option maxRecDepth 10000

/-!
A shallow embedding of the VL01 → Suntech protocol translator
(source files: app/src/protocols/vl01/mapper.py and app/src/suntech/utils.py).

Modelling conventions:
* device bytes are natural numbers and byte strings are lists of naturals;
* Python floats (latitude, longitude, …) are rationals;
* Python exceptions are an explicit error type, and a function that can raise
  returns in the Except monad; a bare or catch-all handler catches every error;
* the external collaborators (the redis cache, the wall clock, the upstream
  sender, the logger) are passed in as parameters, and the observable effects
  of a handler (cache writes, packets handed to the sender, log events, an
  uncaught exception) are collected in an Outcome record.
-/

/-- The Python exception kinds raised by the translated code. -/
inductive PyExc where
  | structError
  | valueError
  | indexError
  | attributeError
  | typeError
  | keyError
deriving DecidableEq

/-- A UTC instant with the fields Python's datetime carries. -/
structure PyDateTime where
  year : Nat
  month : Nat
  day : Nat
  hour : Nat
  minute : Nat
  second : Nat
deriving DecidableEq

def isLeapYear (y : Nat) : Bool :=
  y % 4 == 0 && (y % 100 != 0 || y % 400 == 0)

def daysInMonth (y m : Nat) : Nat :=
  if m == 2 then (if isLeapYear y then 29 else 28)
  else if m == 4 || m == 6 || m == 9 || m == 11 then 30
  else 31

/-- The validation Python's datetime constructor performs on its calendar
arguments (the year range never fails here: the decoder passes 2000 + byte). -/
def validDateTime (y mo d h mi s : Nat) : Bool :=
  decide (1 ≤ mo) && decide (mo ≤ 12) && decide (1 ≤ d) &&
  decide (d ≤ daysInMonth y mo) && decide (h < 24) && decide (mi < 60) &&
  decide (s < 60)

/-- Python datetime comparison: lexicographic on the components. -/
def PyDateTime.ltb (a b : PyDateTime) : Bool :=
  if a.year < b.year then true else if b.year < a.year then false
  else if a.month < b.month then true else if b.month < a.month then false
  else if a.day < b.day then true else if b.day < a.day then false
  else if a.hour < b.hour then true else if b.hour < a.hour then false
  else if a.minute < b.minute then true else if b.minute < a.minute then false
  else decide (a.second < b.second)

/-- Python byte-string slicing body[i:i+n] (shorter than n when the buffer
runs out, exactly as in Python). -/
def pySlice (body : List Nat) (i n : Nat) : List Nat := (body.drop i).take n

/-- Python indexing body[i]; raises IndexError past the end. -/
def byteAt (body : List Nat) (i : Nat) : Except PyExc Nat :=
  match body.get? i with
  | some b => .ok b
  | none => .error .indexError

/-- Big-endian integer value of a byte list, as struct.unpack reads it. -/
def unpackBE (l : List Nat) : Nat := l.foldl (fun acc b => acc * 256 + b) 0

/-- struct.unpack of one big-endian n-byte unsigned integer at offset i;
raises (struct.error) when the pySlice is shorter than n bytes. -/
def unpackAt (body : List Nat) (i n : Nat) : Except PyExc Nat :=
  let s := pySlice body i n
  if s.length = n then .ok (unpackBE s) else .error .structError

/-- The fields of decode_location_packet that are read before the inner
try block: any failure among them aborts the whole decode. -/
structure CoreFields where
  timestamp : PyDateTime
  sats_byte : Nat
  lat_raw : Nat
  lon_raw : Nat
  speed : Nat
  course : Nat
deriving DecidableEq

/-- Lines 37–49 of mapper.py: the fixed-layout reads of
decode_location_packet, every one of which is outside the inner try.
Note that the course/status word at bytes 16–17 is among them. -/
def decodeCore (body : List Nat) : Except PyExc CoreFields :=
  match pySlice body 0 6 with
  | [y, mo, dd, hh, mi, ss] =>
    if validDateTime (2000 + y) mo dd hh mi ss then
      match body.get? 6 with
      | some sats_byte =>
        match pySlice body 7 8 with
        | [a1, a2, a3, a4, o1, o2, o3, o4] =>
          match body.get? 15 with
          | some speed =>
            match pySlice body 16 2 with
            | [c1, c2] =>
              .ok ⟨⟨2000 + y, mo, dd, hh, mi, ss⟩, sats_byte,
                   unpackBE [a1, a2, a3, a4], unpackBE [o1, o2, o3, o4],
                   speed, unpackBE [c1, c2]⟩
            | _ => .error .structError
          | none => .error .indexError
        | _ => .error .structError
      | none => .error .indexError
    else .error .valueError
  | _ => .error .structError

/-- MNC length selection (lines 64–67): 2 bytes when bit 15 of the MCC is
set, else 1 byte. -/
def mnc_length_of (mcc : Nat) : Nat := if (mcc >>> 15) &&& 1 = 1 then 2 else 1

/-- Line 69: acc_at = 20 + mnc_length + 4 + 8. -/
def acc_at_of (mcc : Nat) : Nat := 20 + mnc_length_of mcc + 4 + 8

/-- Lines 62–86 of mapper.py: the inner try block decoding the optional
trailing fields. The dict mutations already performed before a failure are
kept, the rest are simply missing; the bare except swallows every error. -/
def decodeTrailing (body : List Nat) (gps_fixed : Nat) :
    Option Nat × Option Bool × Option Nat :=
  match unpackAt body 18 2 with
  | .error _ => (none, none, none)
  | .ok mcc =>
    let acc_at := acc_at_of mcc
    match byteAt body acc_at with
    | .error _ => (none, none, none)
    | .ok acc_status =>
      let sb1 := if gps_fixed = 1 then 0 ||| 2 else 0
      let status_bits := if acc_status = 1 then sb1 ||| 1 else sb1
      match byteAt body (acc_at + 2) with
      | .error _ => (some status_bits, none, none)
      | .ok rb =>
        let is_realtime := rb == 0
        match unpackAt body (acc_at + 3) 4 with
        | .error _ => (some status_bits, some is_realtime, none)
        | .ok mileage_km => (some status_bits, some is_realtime, some mileage_km)

/-- One decoded location snapshot: the dict decode_location_packet returns.
The first six keys are always present on success (they are assigned before
the inner try); the trailing three are optional. -/
structure LocationData where
  timestamp : PyDateTime
  satellites : Nat
  latitude : ℚ
  longitude : ℚ
  speed_kmh : Nat
  direction : Nat
  status_bits : Option Nat
  is_realtime : Option Bool
  gps_odometer : Option Nat
deriving DecidableEq

/-- Lines 40–86: assembling the decoded dict from the fixed-layout reads
(hemisphere signs, direction mask, satellite nibble) plus the trailing
fields. Pure computations of the source are grouped here unchanged. -/
def mkLocationData (body : List Nat) (c : CoreFields) : LocationData :=
  let lat : ℚ := (c.lat_raw : ℚ) / 1800000
  let lon : ℚ := (c.lon_raw : ℚ) / 1800000
  let is_latitude_north := (c.course >>> 10) &&& 1
  let is_longitude_west := (c.course >>> 11) &&& 1
  let gps_fixed := (c.course >>> 12) &&& 1
  let t := decodeTrailing body gps_fixed
  { timestamp := c.timestamp
    satellites := c.sats_byte &&& 15
    latitude := if is_latitude_north = 0 then -|lat| else |lat|
    longitude := if is_longitude_west = 0 then |lon| else -|lon|
    speed_kmh := c.speed
    direction := c.course &&& 1023
    status_bits := t.1
    is_realtime := t.2.1
    gps_odometer := t.2.2 }

/-- The body of decode_location_packet inside the outer try: any raised
error appears as an Except.error value. -/
def decodeLocation (body : List Nat) : Except PyExc LocationData :=
  (decodeCore body).map (mkLocationData body)

/-- decode_location_packet (lines 32–92): the outer except Exception
handler logs and returns None, so every error maps to none. -/
def decode_location_packet (body : List Nat) : Option LocationData :=
  match decodeLocation body with
  | .ok d => some d
  | .error _ => none

/-- The alarm-code translation table VL01_TO_SUNTECH_ALERT_MAP
(mapper.py lines 15–29); dict.get returns none for absent keys. -/
def VL01_TO_SUNTECH_ALERT_MAP : Nat → Option Nat
  | 0x01 => some 42
  | 0x02 => some 41
  | 0x03 => some 15
  | 0x04 => some 6
  | 0x05 => some 5
  | 0x06 => some 1
  | 0x19 => some 14
  | 0xF0 => some 46
  | 0xF1 => some 47
  | 0x13 => some 147
  | 0x14 => some 73
  | 0xFE => some 33
  | 0xFF => some 34
  | _ => none

/-- A location_data dict as the Suntech builders consume it: every key the
builders touch, each possibly absent. -/
structure SunLoc where
  timestamp : Option PyDateTime := none
  latitude : Option ℚ := none
  longitude : Option ℚ := none
  speed_kmh : Option ℚ := none
  direction : Option ℚ := none
  satellites : Option Nat := none
  status_bits : Option Nat := none
  is_realtime : Option Bool := none
  gps_odometer : Option Nat := none
  voltage : Option String := none
  cell_id : Option String := none
  power_voltage : Option String := none
deriving DecidableEq

/-- Normalization every Suntech builder applies to the device identifier:
keep the digits, then Python s[-10:] keeps at most the last ten. -/
def normalize_dev_id (dev : String) : String :=
  let dn := dev.toList.filter Char.isDigit
  String.mk (dn.drop (dn.length - 10))

/-- Left-pad with zeros to k characters (Python %02d / %04d / {:04d}). -/
def padZero (k : Nat) (s : String) : String :=
  String.mk (List.replicate (k - s.length) '0') ++ s

def pad2 (n : Nat) : String := padZero 2 (toString n)

def pad4 (n : Nat) : String := padZero 4 (toString n)

/-- Fixed-point decimal rendering with k fractional digits, modelling the
Python f-string format {:.kf} (rounding of the magnitude to k places; the
half-even detail of binary floats is immaterial to every claim here). -/
def fmtFixed (k : Nat) (q : ℚ) : String :=
  let scaled := (q.num.natAbs * 10 ^ k * 2 + q.den) / (2 * q.den)
  (if q.num < 0 then "-" else "") ++
    toString (scaled / 10 ^ k) ++ "." ++ padZero k (toString (scaled % 10 ^ k))

def fmt6 (q : ℚ) : String := fmtFixed 6 q

def fmt2 (q : ℚ) : String := fmtFixed 2 q

/-- strftime %Y%m%d. -/
def fmtDate8 (ts : PyDateTime) : String :=
  pad4 ts.year ++ pad2 ts.month ++ pad2 ts.day

/-- strftime %H:%M:%S. -/
def fmtTime (ts : PyDateTime) : String :=
  pad2 ts.hour ++ ":" ++ pad2 ts.minute ++ ":" ++ pad2 ts.second

/-- Python truthiness of the string (or None) redis hget returns. -/
def pyTruthy : Option String → Bool
  | some s => s != ""
  | none => false

/-- The expression hget(...) if hget(...) else quote-0 used for the
output-status field. -/
def pyTruthyStr : Option String → String
  | some s => if s != "" then s else "0"
  | none => "0"

/-- Python str() applied to an optional integer (str(None) is "None"). -/
def pyStrOptNat : Option Nat → String
  | some n => toString n
  | none => "None"

/-- Python list indexing on the command parts. -/
def listAt (l : List String) (i : Nat) : Except PyExc String :=
  match l.get? i with
  | some v => .ok v
  | none => .error .indexError

/-- build_suntech_packet (utils.py lines 24–86) up to the final join: the
field list. The five location_data[...] subscript accesses raise KeyError
when the key is absent; every .get access has a default. The cached
last_output_status read (redis hget) is the outStat parameter. -/
def build_suntech_packet_fields (hdr dev : String) (loc : SunLoc) (serial : Nat)
    (is_realtime : Bool) (alert_id geo_fence_id : Option Nat)
    (outStat : Option String) : Except PyExc (List String) :=
  match loc.timestamp, loc.latitude, loc.longitude, loc.speed_kmh, loc.direction with
  | some ts, some lat, some lon, some speed, some dir =>
    let dn := dev.toList.filter Char.isDigit
    let base := [hdr,
      String.mk (dn.drop (dn.length - 10)),
      "FFF83F", "218", "1.0.12",
      if is_realtime then "1" else "0",
      fmtDate8 ts, fmtTime ts,
      if 0 ≤ lat then "+" ++ fmt6 lat else fmt6 lat,
      if 0 ≤ lon then "+" ++ fmt6 lon else fmt6 lon,
      fmt2 speed, fmt2 dir,
      toString (loc.satellites.getD 15),
      if (loc.status_bits.getD 0) &&& 2 ≠ 0 then "1" else "0",
      "0000000" ++ toString ((loc.status_bits.getD 0) &&& 1),
      "0000000" ++ pyTruthyStr outStat]
    let telemetry := ["00028003", loc.voltage.getD "12.43", "0.0",
      toString (loc.gps_odometer.getD 0), "1"]
    if hdr = "STT" then
      let mode := if pyTruthy outStat then "0" else "1"
      .ok (base ++ [mode, "1", pad4 (serial % 10000), ""] ++ telemetry)
    else if hdr = "ALT" then
      let alert_mod :=
        if (alert_id = some 5 ∨ alert_id = some 6) ∧ geo_fence_id.isSome
        then toString (geo_fence_id.getD 0) else ""
      .ok (base ++ [pyStrOptNat alert_id, alert_mod, "", ""] ++ telemetry)
    else .ok base
  | _, _, _, _, _ => .error .keyError

/-- build_suntech_packet: join the fields with semicolons. -/
def build_suntech_packet (hdr dev : String) (loc : SunLoc) (serial : Nat)
    (is_realtime : Bool) (alert_id geo_fence_id : Option Nat)
    (outStat : Option String) : Except PyExc String :=
  (build_suntech_packet_fields hdr dev loc serial is_realtime alert_id
    geo_fence_id outStat).map (String.intercalate ";")

/-- build_suntech_alv_packet (utils.py lines 89–96). -/
def build_suntech_alv_packet (dev : String) : String :=
  let dn := dev.toList.filter Char.isDigit
  "ALV;" ++ String.mk (dn.drop (dn.length - 10))

/-- build_suntech_res_packet (utils.py lines 98–136) up to the final join.
The timestamp default is datetime.now(), passed in as the now parameter. -/
def build_suntech_res_fields (dev : String) (command_parts : List String)
    (loc : SunLoc) (now : PyDateTime) (outStat : Option String) :
    Except PyExc (List String) :=
  match listAt command_parts 2 with
  | .error e => .error e
  | .ok cmd_group =>
    match listAt command_parts 3 with
    | .error e => .error e
    | .ok cmd_action =>
      let ts := loc.timestamp.getD now
      let date_fields := [pad4 ts.year, pad2 ts.month, pad2 ts.day, fmtTime ts]
      let mode := if pyTruthy outStat then "0" else "1"
      let dn := dev.toList.filter Char.isDigit
      .ok (["RES", String.mk (dn.drop (dn.length - 10)), cmd_group, cmd_action]
        ++ date_fields ++
        [loc.cell_id.getD "0",
         fmt6 (loc.latitude.getD 0), fmt6 (loc.longitude.getD 0),
         fmt2 (loc.speed_kmh.getD 0), fmt2 (loc.direction.getD 0),
         toString (loc.satellites.getD 0),
         if (loc.status_bits.getD 0) &&& 2 ≠ 0 then "1" else "0",
         toString (loc.gps_odometer.getD 0),
         loc.power_voltage.getD "0.0",
         "0000000" ++ toString ((loc.status_bits.getD 0) &&& 1),
         "0000000" ++ pyTruthyStr outStat,
         mode, "0"])

/-- build_suntech_res_packet: join the fields with semicolons. -/
def build_suntech_res_packet (dev : String) (command_parts : List String)
    (loc : SunLoc) (now : PyDateTime) (outStat : Option String) :
    Except PyExc String :=
  (build_suntech_res_fields dev command_parts loc now outStat).map
    (String.intercalate ";")

/-- Observable effects of running one packet handler: redis hset writes,
packets handed to send_to_main_server, log events (as short tags), and the
exception escaping to the caller when one does. -/
structure Outcome where
  writes : List (String × Nat)
  sent : List String
  logs : List String
  exc : Option PyExc
deriving DecidableEq

/-- The dict merge definitive = mergeDicts last alarm of mapper.py line 141:
the alarm frame dict always carries the six core keys, so they override the
cached ones; its optional trailing keys override only when present; keys the
alarm decoder never produces (voltage, cell id, …) survive from the cache. -/
def mergeLocation (last : SunLoc) (alarm : LocationData) : SunLoc :=
  { timestamp := some alarm.timestamp
    latitude := some alarm.latitude
    longitude := some alarm.longitude
    speed_kmh := some (alarm.speed_kmh : ℚ)
    direction := some (alarm.direction : ℚ)
    satellites := some alarm.satellites
    status_bits := alarm.status_bits <|> last.status_bits
    is_realtime := alarm.is_realtime <|> last.is_realtime
    gps_odometer := alarm.gps_odometer <|> last.gps_odometer
    voltage := last.voltage
    cell_id := last.cell_id
    power_voltage := last.power_voltage }

/-- handle_alarm_packet from line 133 on, once a decoded alarm dict with its
timestamp is in hand. The staleness limit (datetime.now minus two minutes,
line 133) is the limit parameter; cache is the redis hget of
last_location_data, already deserialized (none when the key is absent, in
which case json.loads(None) raises TypeError); outStat is the cached
last_output_status consulted inside the builder. The merged dict always
holds at least the alarm keys, so the line 143 emptiness drop never fires. -/
def alarm_tail (dev : String) (serial : Nat) (body : List Nat)
    (alarm : LocationData) (limit : PyDateTime) (cache : Option SunLoc)
    (outStat : Option String) : Outcome :=
  let staleLogs := if ¬ (limit.ltb alarm.timestamp) then ["memory_alarm"] else []
  match cache with
  | none => ⟨[], [], staleLogs, some .typeError⟩
  | some last =>
    let definitive := mergeLocation last alarm
    match byteAt body 17 with
    | .error e => ⟨[], [], staleLogs, some e⟩
    | .ok alarm_code =>
      match VL01_TO_SUNTECH_ALERT_MAP alarm_code with
      | none => ⟨[], [], staleLogs ++ ["unmapped_alarm"], none⟩
      | some suntech_alert_id =>
        match build_suntech_packet "ALT" dev definitive serial true
            (some suntech_alert_id) none outStat with
        | .error e => ⟨[], [], staleLogs ++ ["alarm_translated"], some e⟩
        | .ok pkt =>
          if pkt ≠ "" then
            ⟨[], [pkt], staleLogs ++ ["alarm_translated", "alert_sent"], none⟩
          else ⟨[], [], staleLogs ++ ["alarm_translated"], none⟩

/-- handle_alarm_packet (mapper.py lines 120–165). Bodies under 21 bytes are
dropped with a log. The handler then decodes only body[0:16]; when that
decode returns None, line 128 (None.get) raises AttributeError. When it
returns a dict, the timestamp key is always present and truthy (it is the
first key the decoder assigns), so the line 129 drop never fires and control
reaches the staleness check and the rest. -/
def handle_alarm_packet (dev : String) (serial : Nat) (body : List Nat)
    (limit : PyDateTime) (cache : Option SunLoc) (outStat : Option String) :
    Outcome :=
  if body.length < 21 then ⟨[], [], ["short_alarm"], none⟩
  else
    match decode_location_packet (body.take 16) with
    | none => ⟨[], [], [], some .attributeError⟩
    | some alarm => alarm_tail dev serial body alarm limit cache outStat

/-- handle_heartbeat_packet (mapper.py lines 167–178): persist bit 7 of
byte 0 as last_output_status, then always build and send the ALV packet
(sent only when truthy, i.e. nonempty — which it always is). An empty body
makes body[0] raise IndexError, which nothing catches. -/
def handle_heartbeat_packet (dev : String) (serial : Nat) (body : List Nat) :
    Outcome :=
  match byteAt body 0 with
  | .error e => ⟨[], [], [], some e⟩
  | .ok terminal_info =>
    let output_status := (terminal_info >>> 7) &&& 1
    let pkt := build_suntech_alv_packet dev
    if pkt ≠ "" then
      ⟨[("last_output_status", output_status)], [pkt], ["alv_sent"], none⟩
    else ⟨[("last_output_status", output_status)], [], [], none⟩

lemma testBit_iff (n i : Nat) : n.testBit i ↔ (n >>> i) &&& 1 = 1 := by
  rw [Nat.testBit, Nat.and_comm 1, Nat.and_one_is_mod]
  simp [bne]

lemma decodeCore_ok_length {body : List Nat} {c : CoreFields}
    (h : decodeCore body = .ok c) : 18 ≤ body.length := by
  unfold decodeCore at h
  split at h
  case _ y mo dd hh mi ss heq =>
    split at h
    · split at h
      · split at h
        · split at h
          · split at h
            case _ c1 c2 heq2 =>
              have hl := congrArg List.length heq2
              simp [pySlice, List.length_take, List.length_drop] at hl
              omega
            case _ =>
              exact absurd h (by simp)
          · exact absurd h (by simp)
        · exact absurd h (by simp)
      · exact absurd h (by simp)
    · exact absurd h (by simp)
  case _ =>
    exact absurd h (by simp)

lemma decodeTrailing_mono (body : List Nat) (g : Nat) :
    ((decodeTrailing body g).1 = none →
      (decodeTrailing body g).2.1 = none ∧ (decodeTrailing body g).2.2 = none)
    ∧ ((decodeTrailing body g).2.1 = none → (decodeTrailing body g).2.2 = none) := by
  unfold decodeTrailing
  cases h1 : unpackAt body 18 2 with
  | error e => simp
  | ok mcc =>
    cases h2 : byteAt body (acc_at_of mcc) with
    | error e => simp [h2]
    | ok acc_status =>
      cases h3 : byteAt body (acc_at_of mcc + 2) with
      | error e => simp [h2, h3]
      | ok rb =>
        cases h4 : unpackAt body (acc_at_of mcc + 3) 4 with
        | error e => simp [h2, h3, h4]
        | ok m => simp [h2, h3, h4]

lemma mkLocationData_latitude (body : List Nat) (c : CoreFields) :
    (mkLocationData body c).latitude =
      if (c.course >>> 10) &&& 1 = 0 then -|(c.lat_raw : ℚ) / 1800000|
      else |(c.lat_raw : ℚ) / 1800000| := rfl

lemma mkLocationData_longitude (body : List Nat) (c : CoreFields) :
    (mkLocationData body c).longitude =
      if (c.course >>> 11) &&& 1 = 0 then |(c.lon_raw : ℚ) / 1800000|
      else -|(c.lon_raw : ℚ) / 1800000| := rfl

/-- C10: decode_location_packet is total: the outer handler turns every
raised error into the failure value None and passes a decoded dict through
unchanged, so the caller never sees an exception; a buffer too short for
the 18 fixed-layout bytes, or an invalid calendar prefix, yields None. -/
theorem vl01_decode_total :
    ∀ body : List Nat,
      (∀ e, decodeLocation body = .error e → decode_location_packet body = none)
      ∧ (∀ d, decodeLocation body = .ok d → decode_location_packet body = some d)
      ∧ (body.length < 18 → decode_location_packet body = none)
      ∧ (∀ y mo dd hh mi ss rest, body = y :: mo :: dd :: hh :: mi :: ss :: rest →
          validDateTime (2000 + y) mo dd hh mi ss = false →
          decode_location_packet body = none) := by
  intro body
  refine ⟨?_, ?_, ?_, ?_⟩
  · intro e he; simp [decode_location_packet, he]
  · intro d hd; simp [decode_location_packet, hd]
  · intro hlen
    cases hc : decodeCore body with
    | error e => simp [decode_location_packet, decodeLocation, hc, Except.map]
    | ok c => exact absurd (decodeCore_ok_length hc) (by omega)
  · intro y mo dd hh mi ss rest hbody hval
    subst hbody
    have hs : pySlice (y :: mo :: dd :: hh :: mi :: ss :: rest) 0 6
        = [y, mo, dd, hh, mi, ss] := rfl
    simp [decode_location_packet, decodeLocation, decodeCore, hs, hval, Except.map]

theorem vl01_decode_total_witness :
    decode_location_packet [0, 0, 0, 0, 0, 0, 0, 0, 0, 0] = none
    ∧ decode_location_packet
        [24, 13, 1, 0, 0, 0, 7, 0, 0, 0, 0, 0, 0, 0, 0, 5, 4, 0, 0, 0] = none := by
  constructor
  · exact (vl01_decode_total _).2.2.1 (by decide)
  · exact (vl01_decode_total _).2.2.2 24 13 1 0 0 0 _ rfl (by decide)

/-- C7 (amended): once the 18 fixed-layout bytes decode, the whole decode
never fails and keeps timestamp, satellites, speed and direction from the
fixed layout, whatever happens to the trailing bytes; a failure among the
optional trailing fields leaves exactly the not-yet-assigned ones absent
(status_bits, is_realtime, gps_odometer are assigned in that order). -/
theorem vl01_trailing_partial_keep :
    ∀ body c, decodeCore body = .ok c →
      ∃ d, decode_location_packet body = some d
        ∧ d.timestamp = c.timestamp
        ∧ d.satellites = c.sats_byte &&& 15
        ∧ d.speed_kmh = c.speed
        ∧ d.direction = c.course &&& 1023
        ∧ (d.status_bits = none → d.is_realtime = none ∧ d.gps_odometer = none)
        ∧ (d.is_realtime = none → d.gps_odometer = none) := by
  intro body c hc
  refine ⟨mkLocationData body c, ?_, rfl, rfl, rfl, rfl, ?_, ?_⟩
  · simp [decode_location_packet, decodeLocation, hc, Except.map]
  · exact (decodeTrailing_mono body ((c.course >>> 12) &&& 1)).1
  · exact (decodeTrailing_mono body ((c.course >>> 12) &&& 1)).2

theorem vl01_trailing_partial_keep_witness :
    ∃ d, decode_location_packet
        [24, 6, 1, 12, 0, 0, 8, 0, 0, 0, 1, 0, 0, 0, 2, 9, 16, 32] = some d
      ∧ d.timestamp = ⟨2024, 6, 1, 12, 0, 0⟩
      ∧ (d.status_bits = none → d.is_realtime = none ∧ d.gps_odometer = none) := by
  obtain ⟨d, h1, h2, _, _, _, h6, _⟩ :=
    vl01_trailing_partial_keep
      [24, 6, 1, 12, 0, 0, 8, 0, 0, 0, 1, 0, 0, 0, 2, 9, 16, 32]
      ⟨⟨2024, 6, 1, 12, 0, 0⟩, 8, 1, 2, 9, 4128⟩ rfl
  exact ⟨d, h1, h2, h6⟩

/-- The body of a 34-byte location frame on which the trailing decode fails
midway: the ACC byte at offset 33 is read and status_bits assigned, then
the realtime read at offset 35 raises and is swallowed. -/
def cbody7 : List Nat :=
  [24, 6, 1, 12, 0, 0, 7, 0, 0, 0, 0, 0, 0, 0, 0, 5, 16, 32, 0, 1,
   0, 0, 0, 0, 0, 0, 0, 0, 0, 0, 0, 0, 0, 1]

/-- C7 (counterexample): a trailing-field failure does not leave all three
optional fields absent — here the decode succeeds, is_realtime and the
odometer are absent, yet status_bits is present (value 3). -/
theorem vl01_trailing_absent_counterexample :
    (decode_location_packet cbody7).map LocationData.status_bits = some (some 3)
    ∧ (decode_location_packet cbody7).map LocationData.is_realtime = some none
    ∧ (decode_location_packet cbody7).map LocationData.gps_odometer = some none :=
  ⟨rfl, rfl, rfl⟩

/-- C6: the decoded latitude is +abs when bit 10 of the course/status word
is set and -abs when clear; the longitude is -abs when bit 11 is set and
+abs when clear; with bit 10 set and bit 11 clear both are non-negative. -/
theorem vl01_hemisphere_signs :
    ∀ body c, decodeCore body = .ok c →
      ∃ d, decode_location_packet body = some d
        ∧ (c.course.testBit 10 → d.latitude = |(c.lat_raw : ℚ) / 1800000|)
        ∧ (¬ c.course.testBit 10 → d.latitude = -|(c.lat_raw : ℚ) / 1800000|)
        ∧ (c.course.testBit 11 → d.longitude = -|(c.lon_raw : ℚ) / 1800000|)
        ∧ (¬ c.course.testBit 11 → d.longitude = |(c.lon_raw : ℚ) / 1800000|)
        ∧ (c.course.testBit 10 → ¬ c.course.testBit 11 →
            0 ≤ d.latitude ∧ 0 ≤ d.longitude) := by
  intro body c hc
  have hlat := mkLocationData_latitude body c
  have hlon := mkLocationData_longitude body c
  have h10 := testBit_iff c.course 10
  have h11 := testBit_iff c.course 11
  have hone10 : (c.course >>> 10) &&& 1 = (c.course >>> 10) % 2 := Nat.and_one_is_mod _
  have hone11 : (c.course >>> 11) &&& 1 = (c.course >>> 11) % 2 := Nat.and_one_is_mod _
  refine ⟨mkLocationData body c, ?_, ?_, ?_, ?_, ?_, ?_⟩
  · simp [decode_location_packet, decodeLocation, hc, Except.map]
  · intro hb
    rw [h10] at hb
    have hne : ¬ ((c.course >>> 10) &&& 1 = 0) := by rw [hb]; decide
    rw [hlat, if_neg hne]
  · intro hb
    have h0 : (c.course >>> 10) &&& 1 = 0 := by
      rw [hone10]
      rcases Nat.mod_two_eq_zero_or_one (c.course >>> 10) with h | h
      · exact h
      · exact absurd (h10.2 (by rw [hone10, h])) hb
    rw [hlat, if_pos h0]
  · intro hb
    rw [h11] at hb
    have hne : ¬ ((c.course >>> 11) &&& 1 = 0) := by rw [hb]; decide
    rw [hlon, if_neg hne]
  · intro hb
    have h0 : (c.course >>> 11) &&& 1 = 0 := by
      rw [hone11]
      rcases Nat.mod_two_eq_zero_or_one (c.course >>> 11) with h | h
      · exact h
      · exact absurd (h11.2 (by rw [hone11, h])) hb
    rw [hlon, if_pos h0]
  · intro hb10 hb11
    rw [h10] at hb10
    have hne : ¬ ((c.course >>> 10) &&& 1 = 0) := by rw [hb10]; decide
    have h0 : (c.course >>> 11) &&& 1 = 0 := by
      rw [hone11]
      rcases Nat.mod_two_eq_zero_or_one (c.course >>> 11) with h | h
      · exact h
      · exact absurd (h11.2 (by rw [hone11, h])) hb11
    constructor
    · rw [hlat, if_neg hne]
      exact abs_nonneg _
    · rw [hlon, if_pos h0]
      exact abs_nonneg _

theorem vl01_hemisphere_signs_witness :
    ∃ d, decode_location_packet
        [24, 6, 1, 1, 2, 3, 10, 0, 0, 0, 0, 0, 0, 0, 0, 60, 4, 0] = some d
      ∧ 0 ≤ d.latitude ∧ 0 ≤ d.longitude := by
  obtain ⟨d, h1, _, _, _, _, h6⟩ :=
    vl01_hemisphere_signs
      [24, 6, 1, 1, 2, 3, 10, 0, 0, 0, 0, 0, 0, 0, 0, 60, 4, 0]
      ⟨⟨2024, 6, 1, 1, 2, 3⟩, 10, 0, 0, 60, 1024⟩ rfl
  exact ⟨d, h1, (h6 (by decide) (by decide)).1, (h6 (by decide) (by decide)).2⟩

lemma mcc_high_bit (m0 m1 : Nat) (h0 : m0 < 128) (h1 : m1 < 256) :
    (((m0 + 128) * 256 + m1) >>> 15) &&& 1 = 1 := by
  have hd : ((m0 + 128) * 256 + m1) >>> 15 = 1 := by
    rw [Nat.shiftRight_eq_div_pow]
    have e : (2 : Nat) ^ 15 = 32768 := by norm_num
    rw [e]
    exact Nat.div_eq_of_lt_le (by omega) (by omega)
  rw [hd]
  decide

lemma mcc_low_bit (m0 m1 : Nat) (h0 : m0 < 128) (h1 : m1 < 256) :
    ((m0 * 256 + m1) >>> 15) &&& 1 = 0 := by
  have hd : (m0 * 256 + m1) >>> 15 = 0 := by
    rw [Nat.shiftRight_eq_div_pow]
    have e : (2 : Nat) ^ 15 = 32768 := by norm_num
    rw [e]
    exact Nat.div_eq_of_lt (by omega)
  rw [hd]
  decide

lemma decodeTrailing_eq_of_reads (body1 body2 : List Nat) (g mcc1 mcc2 a1 a2 : Nat)
    (h1 : unpackAt body1 18 2 = .ok mcc1) (h2 : unpackAt body2 18 2 = .ok mcc2)
    (ha1 : acc_at_of mcc1 = a1) (ha2 : acc_at_of mcc2 = a2)
    (hacc : body1.get? a1 = body2.get? a2)
    (hrt : body1.get? (a1 + 2) = body2.get? (a2 + 2))
    (hod : pySlice body1 (a1 + 3) 4 = pySlice body2 (a2 + 3) 4) :
    decodeTrailing body1 g = decodeTrailing body2 g := by
  simp only [decodeTrailing, h1, h2, ha1, ha2]
  simp only [byteAt]
  rw [hacc, hrt]
  simp only [unpackAt]
  rw [hod]

lemma decode_eq_of_core_trailing (body1 body2 : List Nat)
    (hcore : decodeCore body1 = decodeCore body2)
    (htrail : ∀ g, decodeTrailing body1 g = decodeTrailing body2 g) :
    decode_location_packet body1 = decode_location_packet body2 := by
  unfold decode_location_packet decodeLocation
  rw [hcore]
  cases hc : decodeCore body2 with
  | error e => rfl
  | ok c =>
    simp only [Except.map, mkLocationData]
    rw [htrail ((c.course >>> 12) &&& 1)]

/-- C5: in a full location frame the ACC byte is read at
20 + mnc_length + 4 + 8, with mnc_length 2 when bit 15 of the big-endian
MCC at bytes 18–19 is set and 1 otherwise (offsets 34 versus 33); hence,
for otherwise identical trailing bytes, setting MCC bit 15 (with one extra
MNC byte inserted) leaves every decoded field unchanged: the ACC, realtime
and odometer reads shift by exactly one byte. -/
theorem vl01_mnc_offset_shift :
    ∀ t0 t1 t2 t3 t4 t5 t6 t7 t8 t9 t10 t11 t12 t13 t14 t15 t16 t17
      m0 m1 x : Nat, ∀ rest : List Nat, m0 < 128 → m1 < 256 →
      decode_location_packet
          (t0 :: t1 :: t2 :: t3 :: t4 :: t5 :: t6 :: t7 :: t8 :: t9 :: t10 ::
            t11 :: t12 :: t13 :: t14 :: t15 :: t16 :: t17 ::
            (m0 + 128) :: m1 :: x :: rest)
        = decode_location_packet
          (t0 :: t1 :: t2 :: t3 :: t4 :: t5 :: t6 :: t7 :: t8 :: t9 :: t10 ::
            t11 :: t12 :: t13 :: t14 :: t15 :: t16 :: t17 :: m0 :: m1 :: rest)
      ∧ (∀ mcc, (mcc >>> 15) &&& 1 = 1 → acc_at_of mcc = 34)
      ∧ (∀ mcc, (mcc >>> 15) &&& 1 = 0 → acc_at_of mcc = 33) := by
  intro t0 t1 t2 t3 t4 t5 t6 t7 t8 t9 t10 t11 t12 t13 t14 t15 t16 t17
    m0 m1 x rest h0 h1
  have e128 : (0 * 256 + (m0 + 128)) * 256 + m1 = (m0 + 128) * 256 + m1 := by ring
  have e0 : (0 * 256 + m0) * 256 + m1 = m0 * 256 + m1 := by ring
  have ha34 : ∀ mcc, (mcc >>> 15) &&& 1 = 1 → acc_at_of mcc = 34 := by
    intro mcc h
    unfold acc_at_of mnc_length_of
    rw [if_pos h]
  have ha33 : ∀ mcc, (mcc >>> 15) &&& 1 = 0 → acc_at_of mcc = 33 := by
    intro mcc h
    unfold acc_at_of mnc_length_of
    rw [if_neg (by rw [h]; decide)]
  refine ⟨?_, ha34, ha33⟩
  refine decode_eq_of_core_trailing _ _ rfl (fun g => ?_)
  exact decodeTrailing_eq_of_reads _ _ g
    ((0 * 256 + (m0 + 128)) * 256 + m1) ((0 * 256 + m0) * 256 + m1) 34 33
    rfl rfl
    (by rw [e128]; exact ha34 _ (mcc_high_bit m0 m1 h0 h1))
    (by rw [e0]; exact ha33 _ (mcc_low_bit m0 m1 h0 h1))
    rfl rfl rfl

theorem vl01_mnc_offset_shift_witness :
    decode_location_packet
        [24, 6, 1, 12, 0, 0, 7, 0, 0, 0, 3, 0, 0, 0, 4, 5, 16, 32,
         130, 9, 77, 0, 0, 0, 0, 0, 0, 0, 0, 0, 0, 0, 0, 1, 0, 0, 0, 0, 0, 9]
      = decode_location_packet
        [24, 6, 1, 12, 0, 0, 7, 0, 0, 0, 3, 0, 0, 0, 4, 5, 16, 32,
         2, 9, 0, 0, 0, 0, 0, 0, 0, 0, 0, 0, 0, 0, 1, 0, 0, 0, 0, 0, 9] :=
  (vl01_mnc_offset_shift 24 6 1 12 0 0 7 0 0 0 3 0 0 0 4 5 16 32
    2 9 77 [0, 0, 0, 0, 0, 0, 0, 0, 0, 0, 0, 0, 1, 0, 0, 0, 0, 0, 9]
    (by decide) (by decide)).1

/-- A 21-byte alarm body with a valid calendar prefix and mapped alarm
code 0x06 at byte 17. -/
def body_c1 : List Nat :=
  [24, 6, 1, 12, 0, 0, 7, 0, 0, 0, 0, 0, 0, 0, 0, 5, 4, 6, 0, 0, 0]

/-- A cached last location as the alarm handler would find it. -/
def cached_c1 : SunLoc :=
  { timestamp := some ⟨2024, 6, 1, 11, 59, 0⟩, latitude := some 1,
    longitude := some 2, speed_kmh := some 3, direction := some 4,
    satellites := some 9, status_bits := some 1, gps_odometer := some 7 }

/-- C1 (evaluation at the failing input): for a 21-byte alarm body the
16-byte truncated decode always fails (the fixed layout needs 18 bytes:
the course word at bytes 16–18 is read outside the inner try), so the
handler raises AttributeError at the None.get timestamp access instead of
logging and dropping; nothing is sent even though the same body decodes
fine untruncated and a cached location and mapped code are available. -/
theorem vl01_alarm_16_byte_decode_crashes :
    decode_location_packet (body_c1.take 16) = none
    ∧ (handle_alarm_packet "359339072722050" 3 body_c1 ⟨2024, 6, 1, 11, 58, 0⟩
        (some cached_c1) (some "1")).exc = some PyExc.attributeError
    ∧ (handle_alarm_packet "359339072722050" 3 body_c1 ⟨2024, 6, 1, 11, 58, 0⟩
        (some cached_c1) (some "1")).sent = []
    ∧ (decode_location_packet body_c1).isSome = true :=
  ⟨rfl, rfl, rfl, rfl⟩

/-- A 21-byte alarm body (code 0x01 at byte 17) for the no-cache case. -/
def body_c2 : List Nat :=
  [24, 6, 2, 8, 30, 0, 6, 0, 0, 0, 0, 0, 0, 0, 0, 9, 4, 1, 0, 0, 0]

/-- The alarm record the decoder was meant to produce for body_c2. -/
def rec_c2 : LocationData :=
  ⟨⟨2024, 6, 2, 8, 30, 0⟩, 6, 0, 0, 9, 4, none, none, none⟩

/-- C2 (evaluation at the failing input): an alarm frame for a device with
no cached last_location is not dropped silently — the handler raises
(AttributeError at the timestamp access; and even handed a decoded alarm
record, the tail raises TypeError at json.loads(None)); no packet is
sent. -/
theorem vl01_alarm_missing_cache_raises :
    (handle_alarm_packet "4567890123" 5 body_c2 ⟨2024, 6, 2, 8, 28, 0⟩
        none none).exc = some PyExc.attributeError
    ∧ (handle_alarm_packet "4567890123" 5 body_c2 ⟨2024, 6, 2, 8, 28, 0⟩
        none none).sent = []
    ∧ (alarm_tail "4567890123" 5 body_c2 rec_c2 ⟨2024, 6, 2, 8, 28, 0⟩
        none none).exc = some PyExc.typeError
    ∧ (alarm_tail "4567890123" 5 body_c2 rec_c2 ⟨2024, 6, 2, 8, 28, 0⟩
        none none).sent = [] :=
  ⟨rfl, rfl, rfl, rfl⟩

/-- A 21-byte alarm body with mapped code 0x06 at byte 17. -/
def body_c4 : List Nat :=
  [24, 7, 4, 10, 0, 0, 8, 0, 0, 0, 0, 0, 0, 0, 0, 3, 4, 6, 0, 0, 0]

/-- A cached last location for the C4 evaluation. -/
def cached_c4 : SunLoc :=
  { timestamp := some ⟨2024, 7, 4, 9, 59, 0⟩, latitude := some 5,
    longitude := some 6, speed_kmh := some 7, direction := some 8,
    satellites := some 10, status_bits := some 2, gps_odometer := some 11 }

/-- C4: the static table maps exactly the thirteen documented codes
(0x42 is unmapped); but the handler evaluated at a body carrying mapped
code 0x06 sends nothing and raises AttributeError, because the 16-byte
truncated decode fails before the code is ever read. -/
theorem vl01_alarm_code_table :
    VL01_TO_SUNTECH_ALERT_MAP 0x01 = some 42
    ∧ VL01_TO_SUNTECH_ALERT_MAP 0x02 = some 41
    ∧ VL01_TO_SUNTECH_ALERT_MAP 0x03 = some 15
    ∧ VL01_TO_SUNTECH_ALERT_MAP 0x04 = some 6
    ∧ VL01_TO_SUNTECH_ALERT_MAP 0x05 = some 5
    ∧ VL01_TO_SUNTECH_ALERT_MAP 0x06 = some 1
    ∧ VL01_TO_SUNTECH_ALERT_MAP 0x19 = some 14
    ∧ VL01_TO_SUNTECH_ALERT_MAP 0xF0 = some 46
    ∧ VL01_TO_SUNTECH_ALERT_MAP 0xF1 = some 47
    ∧ VL01_TO_SUNTECH_ALERT_MAP 0x13 = some 147
    ∧ VL01_TO_SUNTECH_ALERT_MAP 0x14 = some 73
    ∧ VL01_TO_SUNTECH_ALERT_MAP 0xFE = some 33
    ∧ VL01_TO_SUNTECH_ALERT_MAP 0xFF = some 34
    ∧ VL01_TO_SUNTECH_ALERT_MAP 0x42 = none
    ∧ body_c4.get? 17 = some 0x06
    ∧ (handle_alarm_packet "0139" 9 body_c4 ⟨2024, 7, 4, 9, 58, 0⟩
        (some cached_c4) (some "0")).sent = []
    ∧ (handle_alarm_packet "0139" 9 body_c4 ⟨2024, 7, 4, 9, 58, 0⟩
        (some cached_c4) (some "0")).exc = some PyExc.attributeError :=
  ⟨rfl, rfl, rfl, rfl, rfl, rfl, rfl, rfl, rfl, rfl, rfl, rfl, rfl, rfl,
   rfl, rfl, rfl⟩

/-- C3: the staleness comparison in the alarm handler only picks a log
message: the packets sent, the cache writes and the escaping exception
never depend on the limit (now minus two minutes), neither in the
post-decode tail nor across the whole handler. -/
theorem vl01_alarm_staleness_only_logs :
    ∀ dev serial body alarm cache outStat (limit1 limit2 : PyDateTime),
      (alarm_tail dev serial body alarm limit1 cache outStat).sent
          = (alarm_tail dev serial body alarm limit2 cache outStat).sent
      ∧ (alarm_tail dev serial body alarm limit1 cache outStat).writes
          = (alarm_tail dev serial body alarm limit2 cache outStat).writes
      ∧ (alarm_tail dev serial body alarm limit1 cache outStat).exc
          = (alarm_tail dev serial body alarm limit2 cache outStat).exc
      ∧ (handle_alarm_packet dev serial body limit1 cache outStat).sent
          = (handle_alarm_packet dev serial body limit2 cache outStat).sent := by
  intro dev serial body alarm cache outStat limit1 limit2
  have htail : ∀ a : LocationData,
      (alarm_tail dev serial body a limit1 cache outStat).sent
          = (alarm_tail dev serial body a limit2 cache outStat).sent
      ∧ (alarm_tail dev serial body a limit1 cache outStat).writes
          = (alarm_tail dev serial body a limit2 cache outStat).writes
      ∧ (alarm_tail dev serial body a limit1 cache outStat).exc
          = (alarm_tail dev serial body a limit2 cache outStat).exc := by
    intro a
    unfold alarm_tail
    cases cache with
    | none => exact ⟨rfl, rfl, rfl⟩
    | some last =>
      cases h2 : byteAt body 17 with
      | error e => simp [h2]
      | ok alarm_code =>
        cases h3 : VL01_TO_SUNTECH_ALERT_MAP alarm_code with
        | none => simp [h2, h3]
        | some aid =>
          cases h4 : build_suntech_packet "ALT" dev (mergeLocation last a)
              serial true (some aid) none outStat with
          | error e => simp [h2, h3, h4]
          | ok pkt =>
            by_cases hp : pkt ≠ ""
            · simp [h2, h3, h4, if_pos hp]
            · simp [h2, h3, h4, if_neg hp]
  refine ⟨(htail alarm).1, (htail alarm).2.1, (htail alarm).2.2, ?_⟩
  unfold handle_alarm_packet
  by_cases hlen : body.length < 21
  · simp only [if_pos hlen]
  · simp only [if_neg hlen]
    cases hd : decode_location_packet (body.take 16) with
    | none => simp only [hd]
    | some a => simp only [hd]; exact (htail a).1

lemma alv_ne_empty (dev : String) : build_suntech_alv_packet dev ≠ "" := by
  intro h
  have hd := congrArg String.data h
  rw [build_suntech_alv_packet, String.data_append] at hd
  simp at hd

/-- C8: for every heartbeat frame (whose body carries its status byte),
the handler persists exactly bit 7 of byte 0 as last_output_status, sends
exactly the keep-alive packet, raises nothing, and the keep-alive packet is
the string ALV, a semicolon and the normalized device id. -/
theorem vl01_heartbeat_alv :
    ∀ dev serial body t, body.get? 0 = some t →
      (handle_heartbeat_packet dev serial body).writes
          = [("last_output_status", (t >>> 7) &&& 1)]
      ∧ (handle_heartbeat_packet dev serial body).sent
          = [build_suntech_alv_packet dev]
      ∧ (handle_heartbeat_packet dev serial body).exc = none
      ∧ build_suntech_alv_packet dev = "ALV;" ++ normalize_dev_id dev := by
  intro dev serial body t h
  unfold handle_heartbeat_packet byteAt
  simp only [h]
  rw [if_pos (alv_ne_empty dev)]
  exact ⟨rfl, rfl, rfl, rfl⟩

theorem vl01_heartbeat_alv_witness :
    (handle_heartbeat_packet "imei:123-456-7890123" 7 [147, 0]).writes
        = [("last_output_status", 1)]
    ∧ (handle_heartbeat_packet "imei:123-456-7890123" 7 [147, 0]).sent
        = ["ALV;4567890123"]
    ∧ (handle_heartbeat_packet "imei:123-456-7890123" 7 [147, 0]).exc = none := by
  obtain ⟨hw, hs, he, _⟩ :=
    vl01_heartbeat_alv "imei:123-456-7890123" 7 [147, 0] 147 rfl
  exact ⟨hw.trans (by decide), hs.trans (by decide), he⟩

/-- C9: every Suntech builder (STT and ALT through
build_suntech_packet_fields, ALV, RES) places the normalized device id —
digits only, at most the last ten — as its second field; on the
documented input the normalization yields 4567890123. -/
theorem suntech_dev_id_normalization :
    (∀ dev, build_suntech_alv_packet dev = "ALV;" ++ normalize_dev_id dev)
    ∧ (∀ hdr dev loc serial rt aid gid os fields,
        build_suntech_packet_fields hdr dev loc serial rt aid gid os
            = .ok fields →
        fields.get? 1 = some (normalize_dev_id dev))
    ∧ (∀ dev parts loc now os fields,
        build_suntech_res_fields dev parts loc now os = .ok fields →
        fields.get? 1 = some (normalize_dev_id dev))
    ∧ normalize_dev_id "imei:123-456-7890123" = "4567890123" := by
  refine ⟨fun dev => rfl, ?_, ?_, by decide⟩
  · intro hdr dev loc serial rt aid gid os fields h
    unfold build_suntech_packet_fields at h
    split at h
    case _ ts lat lon speed dir =>
      by_cases hstt : hdr = "STT"
      · rw [if_pos hstt] at h
        injection h with h
        subst h
        rfl
      · rw [if_neg hstt] at h
        by_cases halt : hdr = "ALT"
        · rw [if_pos halt] at h
          injection h with h
          subst h
          rfl
        · rw [if_neg halt] at h
          injection h with h
          subst h
          rfl
    case _ =>
      exact absurd h (by simp)
  · intro dev parts loc now os fields h
    unfold build_suntech_res_fields at h
    cases hg : listAt parts 2 with
    | error e =>
      simp only [hg] at h
      exact Except.noConfusion h
    | ok cmd_group =>
      simp only [hg] at h
      cases ha : listAt parts 3 with
      | error e =>
        simp only [ha] at h
        exact Except.noConfusion h
      | ok cmd_action =>
        simp only [ha] at h
        injection h with h
        subst h
        rfl

/-- A fully populated location dict for exercising the builders. -/
def loc9 : SunLoc :=
  { timestamp := some ⟨2024, 6, 1, 12, 0, 0⟩, latitude := some 1,
    longitude := some (-2), speed_kmh := some 50, direction := some 32,
    satellites := some 9, status_bits := some 3, gps_odometer := some 5 }

theorem suntech_dev_id_normalization_witness :
    ∃ fields, build_suntech_packet_fields "ALT" "imei:123-456-7890123" loc9 12
        true (some 1) none (some "1") = .ok fields
      ∧ fields.get? 1 = some "4567890123" := by
  refine ⟨_, rfl, ?_⟩
  rw [suntech_dev_id_normalization.2.1 "ALT" "imei:123-456-7890123" loc9 12
    true (some 1) none (some "1") _ rfl]
  rw [suntech_dev_id_normalization.2.2.2]
